import Mathlib

set_option autoImplicit false

/-!
Verification of the `sep2_client` IEEE 2030.5 client library against its
natural-language specification.  The Rust sources are shallowly embedded:
pure control flow (status-code dispatch, header validation, extension
checking, TLS-builder configuration, router dispatch, the poll-task loop and
the notification-server accept loop) becomes executable Lean functions over
explicit inputs; network, file and task effects are replaced by the values
they would deliver (status codes, body bytes, event lists).
-/

namespace Sep2Client

/-! ## Bytes and UTF-8

Models of the byte-level string operations used by the Rust code:
`str::as_bytes` (UTF-8 encoding), `String::from_utf8` (strict decoding, used
by the notification router), `String::from_utf8_lossy` (replacement-character
decoding, used by `Client::get`), and the `http` crate's header-value byte
validity predicates.  Bytes are `Nat`s below 256.
-/

/-- UTF-8 encoding of a single character, as in Rust `char::encode_utf8`. -/
def charBytes (c : Char) : List Nat :=
  let n := c.toNat
  if n < 0x80 then [n]
  else if n < 0x800 then [0xC0 + n / 64, 0x80 + n % 64]
  else if n < 0x10000 then
    [0xE0 + n / 4096, 0x80 + (n / 64) % 64, 0x80 + n % 64]
  else
    [0xF0 + n / 0x40000, 0x80 + (n / 4096) % 64, 0x80 + (n / 64) % 64, 0x80 + n % 64]

/-- UTF-8 encoding of a string, as in Rust `str::as_bytes`. -/
def strBytes (s : String) : List Nat :=
  (s.data.map charBytes).flatten

/-- Whether a byte is a UTF-8 continuation byte (`0x80..=0xBF`). -/
def contByte (b : Nat) : Bool :=
  0x80 ≤ b && b < 0xC0

/-- Valid second byte of a three-byte UTF-8 sequence with first byte `b0`
(rules out overlong encodings and surrogates, as Rust validation does). -/
def validSecond3 (b0 b1 : Nat) : Bool :=
  if b0 = 0xE0 then 0xA0 ≤ b1 && b1 < 0xC0
  else if b0 = 0xED then 0x80 ≤ b1 && b1 < 0xA0
  else contByte b1

/-- Valid second byte of a four-byte UTF-8 sequence with first byte `b0`
(rules out overlong encodings and code points above `U+10FFFF`). -/
def validSecond4 (b0 b1 : Nat) : Bool :=
  if b0 = 0xF0 then 0x90 ≤ b1 && b1 < 0xC0
  else if b0 = 0xF4 then 0x80 ≤ b1 && b1 < 0x90
  else contByte b1

/-- The Unicode replacement character `U+FFFD`. -/
def replChar : Char := Char.ofNat 0xFFFD

/-- Lossy UTF-8 decoding, as in Rust `String::from_utf8_lossy`: each maximal
invalid subsequence is replaced by `U+FFFD` (advancing past exactly the bytes
that formed a prefix of a valid sequence, one byte minimum). -/
def utf8LossyChars : List Nat → List Char
  | [] => []
  | b0 :: t =>
    if b0 < 0x80 then Char.ofNat b0 :: utf8LossyChars t
    else if b0 < 0xC2 then replChar :: utf8LossyChars t
    else if b0 < 0xE0 then
      match t with
      | [] => [replChar]
      | b1 :: t1 =>
        if contByte b1 then
          Char.ofNat ((b0 - 0xC0) * 64 + (b1 - 0x80)) :: utf8LossyChars t1
        else replChar :: utf8LossyChars (b1 :: t1)
    else if b0 < 0xF0 then
      match t with
      | [] => [replChar]
      | b1 :: t1 =>
        if validSecond3 b0 b1 then
          match t1 with
          | [] => [replChar]
          | b2 :: t2 =>
            if contByte b2 then
              Char.ofNat ((b0 - 0xE0) * 4096 + (b1 - 0x80) * 64 + (b2 - 0x80))
                :: utf8LossyChars t2
            else replChar :: utf8LossyChars (b2 :: t2)
        else replChar :: utf8LossyChars (b1 :: t1)
    else if b0 < 0xF5 then
      match t with
      | [] => [replChar]
      | b1 :: t1 =>
        if validSecond4 b0 b1 then
          match t1 with
          | [] => [replChar]
          | b2 :: t2 =>
            if contByte b2 then
              match t2 with
              | [] => [replChar]
              | b3 :: t3 =>
                if contByte b3 then
                  Char.ofNat ((b0 - 0xF0) * 0x40000 + (b1 - 0x80) * 4096
                      + (b2 - 0x80) * 64 + (b3 - 0x80)) :: utf8LossyChars t3
                else replChar :: utf8LossyChars (b3 :: t3)
            else replChar :: utf8LossyChars (b2 :: t2)
        else replChar :: utf8LossyChars (b1 :: t1)
    else replChar :: utf8LossyChars t
termination_by l => l.length
decreasing_by all_goals (simp only [List.length_cons]; omega)

/-- Strict UTF-8 decoding, as in Rust `String::from_utf8`: any invalid
sequence makes the whole decode fail. -/
def utf8DecodeChars : List Nat → Option (List Char)
  | [] => some []
  | b0 :: t =>
    if b0 < 0x80 then (utf8DecodeChars t).map (Char.ofNat b0 :: ·)
    else if b0 < 0xC2 then none
    else if b0 < 0xE0 then
      match t with
      | [] => none
      | b1 :: t1 =>
        if contByte b1 then
          (utf8DecodeChars t1).map (Char.ofNat ((b0 - 0xC0) * 64 + (b1 - 0x80)) :: ·)
        else none
    else if b0 < 0xF0 then
      match t with
      | [] => none
      | b1 :: t1 =>
        if validSecond3 b0 b1 then
          match t1 with
          | [] => none
          | b2 :: t2 =>
            if contByte b2 then
              (utf8DecodeChars t2).map
                (Char.ofNat ((b0 - 0xE0) * 4096 + (b1 - 0x80) * 64 + (b2 - 0x80)) :: ·)
            else none
        else none
    else if b0 < 0xF5 then
      match t with
      | [] => none
      | b1 :: t1 =>
        if validSecond4 b0 b1 then
          match t1 with
          | [] => none
          | b2 :: t2 =>
            if contByte b2 then
              match t2 with
              | [] => none
              | b3 :: t3 =>
                if contByte b3 then
                  (utf8DecodeChars t3).map
                    (Char.ofNat ((b0 - 0xF0) * 0x40000 + (b1 - 0x80) * 4096
                        + (b2 - 0x80) * 64 + (b3 - 0x80)) :: ·)
                else none
            else none
        else none
    else none
termination_by l => l.length
decreasing_by all_goals (simp only [List.length_cons]; omega)

/-- Rust `String::from_utf8_lossy` packaged as a `String`. -/
def from_utf8_lossy (l : List Nat) : String :=
  String.mk (utf8LossyChars l)

/-- Rust `String::from_utf8` packaged as an optional `String`
(`none` models `FromUtf8Error`). -/
def from_utf8 (l : List Nat) : Option String :=
  (utf8DecodeChars l).map String.mk

/-- Byte validity for `http::HeaderValue::to_str` (visible ASCII or tab):
`b >= 32 && b < 127 || b == 9`. -/
def visibleAsciiByte (b : Nat) : Bool :=
  (32 ≤ b && b < 127) || b = 9

/-- Byte validity for constructing an `http::HeaderValue`
(`HeaderValue::from_bytes` / `from_str` / `from_static`):
`b >= 32 && b != 127 || b == 9`; bytes at and above 128 (obs-text) are legal. -/
def validHeaderByte (b : Nat) : Bool :=
  (32 ≤ b && b != 127) || b = 9

/-- Whether all bytes of a header value are legal for `HeaderValue`. -/
def validHeaderBytes (bytes : List Nat) : Bool :=
  bytes.all validHeaderByte

/-- `http::HeaderValue::to_str`, from the header value's bytes: succeeds iff
every byte is visible ASCII (or tab), yielding the corresponding string. -/
def headerToStr (bytes : List Nat) : Option String :=
  if bytes.all visibleAsciiByte then some (String.mk (bytes.map Char.ofNat)) else none

/-- `str::parse::<HeaderValue>()` (and `HeaderValue::from_static`): the
string's UTF-8 bytes when all are legal header bytes, `none` otherwise. -/
def headerValueFromStr (s : String) : Option (List Nat) :=
  if validHeaderBytes (strBytes s) then some (strBytes s) else none

/-! ## Response model (`client.rs`)

`SepResponse` from `src/client/src/client.rs` and its conversion into a
`hyper::Response<Body>`.  A `hyper` response is modelled by its status code,
its `Location` and `Allow` header slots (raw header-value bytes) and whether
its body is empty.  The Rust conversion calls `loc.parse().unwrap()` for
`Created` and `HeaderValue::from_static(methods)` for `MethodNotAllowed`,
both of which panic on illegal header bytes; a panic is modelled as `none`.
-/

/-- The five IEEE 2030.5 HTTP response shapes (`client.rs` version, where
`MethodNotAllowed` carries a `&'static str`). -/
inductive SepResponse where
  | Created (loc : String)
  | NoContent
  | BadRequest
  | NotFound
  | MethodNotAllowed (allow : String)
deriving DecidableEq

/-- A `hyper::Response<Body>` as observed by the claims: status code, the
`Location` and `Allow` headers (raw bytes, `none` when unset), and whether
the body is `Body::empty()`. -/
structure HttpResponse where
  status : Nat
  location : Option (List Nat)
  allow : Option (List Nat)
  bodyEmpty : Bool
deriving DecidableEq

/-- `From<SepResponse> for hyper::Response<Body>` (`client.rs` lines 32-57).
The result is `none` exactly when the Rust code would panic: for `Created`,
`loc.parse().unwrap()` panics when `loc` is not a legal header value; for
`MethodNotAllowed`, `HeaderValue::from_static(methods)` panics likewise. -/
def sepResponseIntoHttp : SepResponse → Option HttpResponse
  | SepResponse.Created loc =>
    (headerValueFromStr loc).map fun bytes =>
      { status := 201, location := some bytes, allow := none, bodyEmpty := true }
  | SepResponse.NoContent =>
    some { status := 204, location := none, allow := none, bodyEmpty := true }
  | SepResponse.BadRequest =>
    some { status := 400, location := none, allow := none, bodyEmpty := true }
  | SepResponse.NotFound =>
    some { status := 404, location := none, allow := none, bodyEmpty := true }
  | SepResponse.MethodNotAllowed methods =>
    (headerValueFromStr methods).map fun bytes =>
      { status := 405, location := none, allow := some bytes, bodyEmpty := true }

/-- Modelled from the spec: "converting to HTTP and reading back the
(status, relevant header) yields `v` exactly" (section 8, Status mapping).
The read-back direction is not code of the repository; following the spec's
words, it recovers the `SepResponse` variant from the status code and decodes
the relevant header's bytes back to a string. -/
def readBackSepResponse (r : HttpResponse) : Option SepResponse :=
  if r.status = 201 then (r.location.bind from_utf8).map SepResponse.Created
  else if r.status = 204 then some SepResponse.NoContent
  else if r.status = 400 then some SepResponse.BadRequest
  else if r.status = 404 then some SepResponse.NotFound
  else if r.status = 405 then (r.allow.bind from_utf8).map SepResponse.MethodNotAllowed
  else none

/-! ## Resource client operations (`client.rs`)

The status-code dispatch of `Client::get` and `Client::put_post` on a
received server response.  Request construction (URI parse, serialization,
`Content-Type`/`Content-Length` headers) happens before any response exists
and does not affect these claims; transport failures surface as separate
`hyper` errors before the dispatch runs.  The XML deserializer of the
external `common` crate is an opaque parameter.
-/

namespace Client

/-- Response dispatch of `Client::get` (`client.rs` lines 107-114): `200` →
read the body to completion, decode it with lossy UTF-8 and deserialize;
`404` and any other status fail before the body is touched.  `deser` stands
for the external `deserialize::<R>`. -/
def get {R : Type} (deser : String → Except String R) (status : Nat)
    (body : List Nat) : Except String R :=
  if status = 200 then deser (from_utf8_lossy body)
  else if status = 404 then Except.error "404 Not Found"
  else Except.error "Unexpected HTTP response from server"

/-- Response dispatch of `Client::put_post` (`client.rs` lines 239-253),
shared by `put` and `post`: `201` requires a `Location` header that
`to_str()` can decode; `204`, `400`, `404` and the catch-all follow the
match arms of the source.  `location` is the raw `Location` header value
(`none` when the header is absent). -/
def put_post (status : Nat) (location : Option (List Nat)) : Except String SepResponse :=
  if status = 201 then
    match location with
    | none => Except.error "201 Created - Missing Location Header"
    | some bytes =>
      match headerToStr bytes with
      | some loc => Except.ok (SepResponse.Created loc)
      | none => Except.error "failed to convert header value to a str"
  else if status = 204 then Except.ok SepResponse.NoContent
  else if status = 400 then Except.error "400 Bad Request"
  else if status = 404 then Except.error "404 Not Found"
  else Except.error "Unexpected HTTP response from server"

end Client

/-! ## Poll scheduler (`client.rs`)

The background task spawned by `Client::start_poll` loops on a
`tokio::select!` between an interval sleep and a receive on the shared
broadcast channel.  One loop iteration is driven by one wake event:

* `timer ok` — the sleep fired; the task performs `client.get::<R>` whose
  success is `ok`, invoking the callback on success;
* `forceRun ok` — `recv()` returned `Ok(PollTask::ForceRun)`; same body;
* `cancel` — `recv()` returned `Ok(PollTask::Cancel)`: `break`;
* `closed` — `recv()` returned `Err(RecvError::Closed)` (all senders
  dropped): the `else` branch breaks;
* `lagged` — `recv()` returned `Err(RecvError::Lagged(_))`: the same `else`
  branch breaks.

`pollActions` lists the observable actions (GET requests and callback
invocations) the task performs on a given sequence of wake events.
-/

/-- A wake event of one iteration of the poll-task loop. -/
inductive WakeEvent where
  | timer (getOk : Bool)
  | forceRun (getOk : Bool)
  | cancel
  | closed
  | lagged
deriving DecidableEq

/-- An observable action of a poll task: an HTTP GET, or a callback
invocation. -/
inductive PollAction where
  | get
  | callback
deriving DecidableEq

/-- The actions performed by the task of `Client::start_poll`
(`client.rs` lines 172-203) on a sequence of wake events: `Cancel`, channel
closure and lag all `break` out of the loop; a timer or `ForceRun` wake runs
`client.get::<R>(&path)` and, only on success, the callback. -/
def pollActions : List WakeEvent → List PollAction
  | [] => []
  | WakeEvent.timer ok :: rest =>
    PollAction.get :: (if ok then PollAction.callback :: pollActions rest else pollActions rest)
  | WakeEvent.forceRun ok :: rest =>
    PollAction.get :: (if ok then PollAction.callback :: pollActions rest else pollActions rest)
  | WakeEvent.cancel :: _ => []
  | WakeEvent.closed :: _ => []
  | WakeEvent.lagged :: _ => []

/-- Whether a wake event makes the poll-task loop `break`. -/
def stopsPollTask : WakeEvent → Bool
  | WakeEvent.cancel => true
  | WakeEvent.closed => true
  | WakeEvent.lagged => true
  | _ => false

/-- A message on the shared poll-control broadcast channel
(`PollTask` in `client.rs`). -/
inductive PollMsg where
  | forceRun
  | cancel
deriving DecidableEq

/-- The capacity of the broadcast channel created by `Client::new`
(`client.rs` line 82: `broadcast::channel::<PollTask>(1)`). -/
def pollChannelCapacity : Nat := 1

/-- Outcome of `tokio::sync::broadcast::Receiver::recv` for a receiver at
position `pos` in a channel of the given capacity whose senders have sent
`log` so far: pending when nothing new was sent, `Lagged(missed)` when more
than `capacity` messages are outstanding (the channel retains only the last
`capacity` messages), otherwise the next message. -/
def broadcastRecv (capacity : Nat) (log : List PollMsg) (pos : Nat) : Option (Except Nat PollMsg) :=
  if log.length ≤ pos then none
  else if capacity < log.length - pos then some (Except.error (log.length - pos - capacity))
  else some (Except.ok (log.getD pos PollMsg.forceRun))

/-! ## Notification server (`pubsub.rs`)

The router of `ClientNotifServer` and the accept loop of
`ClientNotifServer::run`.  This file of the crate uses the later
`SEPResponse` shape (`Created` with optional location, `BadRequest` with an
optional payload, `MethodNotAllowed` with an owned `String`).
-/

/-- The response type used by `pubsub.rs` (`crate::client::SEPResponse`): the
variants as constructed there — `BadRequest(None)`,
`MethodNotAllowed("POST".to_owned())`, `NotFound` — plus the remaining 2030.5
shapes.  The `BadRequest` payload is kept opaque as an optional string. -/
inductive SEPResponse where
  | Created (loc : Option String)
  | NoContent
  | BadRequest (detail : Option String)
  | NotFound
  | MethodNotAllowed (allow : String)
deriving DecidableEq

/-- The adapter that `ClientNotifServer::add` wraps around a registered
callback (`pubsub.rs` lines 126-138): deserialize the body string as a
`Notification<T>` (opaque `deser`), invoke the callback on success, and
answer `SEPResponse::BadRequest(None)` on deserialization failure.  `T`
stands for `Notification<T>`; the callback's awaited future result is its
returned `SEPResponse`. -/
def addRouteHandler {T : Type} (deser : String → Except String T)
    (callback : T → SEPResponse) : String → SEPResponse :=
  fun xml =>
    match deser xml with
    | Except.ok resource => callback resource
    | Except.error _ => SEPResponse.BadRequest none

/-- `Router::router` (`pubsub.rs` lines 64-84): look the exact request path
up in the route map; unknown path → `NotFound`; known path with a non-POST
method → `MethodNotAllowed("POST")`; known path with POST → read the body,
decode it with strict UTF-8 (failure propagates as an error out of the
service, via `?`), and run the stored handler on the decoded string.  The
route map is modelled as an association list (`DashMap` with string keys). -/
def router (routes : List (String × (String → SEPResponse))) (path : String)
    (method : String) (body : List Nat) : Except String SEPResponse :=
  match List.lookup path routes with
  | some func =>
    if method = "POST" then
      match from_utf8 body with
      | some xml => Except.ok (func xml)
      | none => Except.error "invalid utf-8 sequence"
    else Except.ok (SEPResponse.MethodNotAllowed "POST")
  | none => Except.ok SEPResponse.NotFound

namespace ClientNotifServer

/-- One observable event of the accept loop of `ClientNotifServer::run`
before the shutdown future completes: either `listener.accept()` failed, or
a connection arrived, with flags telling whether `Ssl::new`,
`SslStream::new`, the TLS handshake `accept().await` and the spawned
`serve_connection` each succeed. -/
inductive NetEvent where
  | acceptErr
  | conn (sslNewOk : Bool) (sslStreamOk : Bool) (handshakeOk : Bool) (serveOk : Bool)
deriving DecidableEq

/-- The observable result of a completed `run`: how many per-connection
tasks were spawned into the `JoinSet`, and whether the graceful shutdown
(`set.shutdown().await`) ran before returning `Ok(())`. -/
structure RunOutcome where
  tasksSpawned : Nat
  gracefulShutdown : Bool
deriving DecidableEq

/-- The accept loop of `ClientNotifServer::run` (`pubsub.rs` lines 156-190),
driven by the events arriving before shutdown (the end of the list is the
shutdown future completing, which `break`s).  An `accept()` error and a
failed TLS handshake are logged and `continue`; but `Ssl::new(...)?` and
`SslStream::new(...)?` propagate their errors out of `run`.  A spawned
connection task only ever logs its serve error. -/
def runLoop : List NetEvent → Nat → Except String RunOutcome
  | [], n => Except.ok { tasksSpawned := n, gracefulShutdown := true }
  | NetEvent.acceptErr :: rest, n => runLoop rest n
  | NetEvent.conn sslNewOk sslStreamOk handshakeOk _ :: rest, n =>
    if !sslNewOk then Except.error "failed to construct per-connection Ssl"
    else if !sslStreamOk then Except.error "failed to construct per-connection SslStream"
    else if !handshakeOk then runLoop rest n
    else runLoop rest (n + 1)

/-- `ClientNotifServer::run` (`pubsub.rs` lines 149-196): `TcpListener::bind`
failure (`bindOk = false`) is an error before the loop starts; otherwise the
accept loop runs over the pre-shutdown events.  `SslAcceptorBuilder::build`
(the `self.cfg.build()` call) is infallible in `rust-openssl`, so acceptor
construction cannot fail here. -/
def run (bindOk : Bool) (events : List NetEvent) : Except String RunOutcome :=
  if bindOk then runLoop events 0
  else Except.error "failed to bind TCP listener"

end ClientNotifServer

/-! ## TLS profile (`sep2_client/src/tls.rs`)

`get_cipher_suite` and `create_client_tls_cfg` as a trace of the builder
calls made on the `SslConnectorBuilder`, in source order.  The `cfg!`
platform test is the boolean parameter.
-/

/-- A configuration call performed on the OpenSSL connector builder. -/
inductive TlsOp where
  | setSecurityLevel (level : Nat)
  | setMinProtoVersion (version : String)
  | setMaxProtoVersion (version : String)
  | setOptions (opts : List String)
  | setCipherList (ciphers : String)
  | setCertificateFile
  | setPrivateKeyFile
  | setCaFile
  | setVerify (modes : List String)
deriving DecidableEq

/-- `get_cipher_suite` (`tls.rs` lines 43-49): macOS lacks CCM8, so the GCM
suite with an embedded `@SECLEVEL=0` directive is substituted there; every
other target gets the 2030.5-mandated CCM8 suite. -/
def get_cipher_suite (targetOsMacos : Bool) : String :=
  if targetOsMacos then "ECDHE-ECDSA-AES128-GCM-SHA256@SECLEVEL=0"
  else "ECDHE-ECDSA-AES128-CCM8"

/-- `create_client_tls_cfg` (`tls.rs` lines 51-82) as the ordered trace of
builder calls it performs when every fallible call succeeds.  Note the
unconditional `builder.set_security_level(0)` at line 59, before any
platform test. -/
def create_client_tls_cfg (targetOsMacos : Bool) : List TlsOp :=
  [ TlsOp.setSecurityLevel 0,
    TlsOp.setMinProtoVersion "TLS1_2",
    TlsOp.setMaxProtoVersion "TLS1_2",
    TlsOp.setOptions ["NO_COMPRESSION", "NO_SSLV2", "NO_SSLV3"],
    TlsOp.setCipherList (get_cipher_suite targetOsMacos),
    TlsOp.setCertificateFile,
    TlsOp.setPrivateKeyFile,
    TlsOp.setCaFile,
    TlsOp.setVerify ["PEER"] ]

/-- All cipher-list strings ever handed to `set_cipher_list` by a builder
trace. -/
def cipherListsSet (ops : List TlsOp) : List String :=
  ops.filterMap fun op =>
    match op with
    | TlsOp.setCipherList s => some s
    | _ => none

/-- All security levels ever handed to `set_security_level` by a builder
trace. -/
def securityLevelsSet (ops : List TlsOp) : List Nat :=
  ops.filterMap fun op =>
    match op with
    | TlsOp.setSecurityLevel n => some n
    | _ => none

/-! ## Certificate validator (`sep2_client/src/tls.rs`)

`check_device_cert` over the parsed extension list of the certificate.  The
`x509_parser` extension shapes that the match arms distinguish are an
inductive; fields that the device check never reads (`KeyUsage` bits,
`BasicConstraints` contents) are carried so the same type serves the other
validators faithfully.
-/

/-- The parsed X.509 v3 extension shapes distinguished by the validators.
`UnsupportedExtension` stands for every other `ParsedExtension` variant of
`x509_parser` (all of which hit the catch-all match arm). -/
inductive ParsedExt where
  | PolicyMappings
  | NameConstraints
  | CertificatePolicies
  | SubjectAlternativeName
  | KeyUsage (keyCertSign : Bool) (crlSign : Bool)
  | AuthorityKeyIdentifier
  | SubjectKeyIdentifier
  | BasicConstraints (ca : Bool) (pathLenPresent : Bool)
  | UnsupportedExtension
deriving DecidableEq

/-- An X.509 extension as iterated by `cert.extensions()`: its criticality
flag and its parsed shape. -/
structure X509Ext where
  critical : Bool
  parsed : ParsedExt
deriving DecidableEq

/-- The extension loop of `check_device_cert` (`tls.rs` lines 168-217),
carrying the four presence flags; on exhausting the list, the presence
checks of lines 218-229 run in source order. -/
def checkDeviceExts : List X509Ext → Bool → Bool → Bool → Bool → Except String Unit
  | [], ku, cp, san, aki =>
    if !ku then Except.error "KeyUsage extension not present"
    else if !cp then Except.error "CertificatePolicies extension not present"
    else if !san then Except.error "SubjectAlternativeName extension not present"
    else if !aki then Except.error "AuthorityKeyIdentifier extension not present"
    else Except.ok ()
  | ext :: rest, ku, cp, san, aki =>
    match ext.parsed with
    | ParsedExt.PolicyMappings =>
      Except.error "Device Certificates cannot contain policy mappings."
    | ParsedExt.NameConstraints =>
      Except.error "Device Certificates cannot contain name constraints."
    | ParsedExt.CertificatePolicies =>
      if ext.critical then checkDeviceExts rest ku true san aki
      else Except.error "CertificatePolicies extension must be critical."
    | ParsedExt.SubjectAlternativeName =>
      if ext.critical then checkDeviceExts rest ku cp true aki
      else Except.error "SubjectAlternativeName extension must be critical"
    | ParsedExt.KeyUsage _ _ =>
      if ext.critical then checkDeviceExts rest true cp san aki
      else Except.error "KeyUsage extension must be critical."
    | ParsedExt.AuthorityKeyIdentifier =>
      if ext.critical then Except.error "AuthorityKeyIdentifier extension cannot be critical."
      else checkDeviceExts rest ku cp san true
    | ParsedExt.SubjectKeyIdentifier =>
      if ext.critical then Except.error "SubjectKeyIdentifier cannot be critical"
      else checkDeviceExts rest ku cp san aki
    | _ => Except.error "Unexpected extension or unparsed extension encountered."

/-- `check_device_cert` (`tls.rs` lines 158-231) on the parsed extension
list of the certificate (PEM reading and X.509 parsing, which only fail on
malformed files, are upstream of the claim). -/
def check_device_cert (exts : List X509Ext) : Except String Unit :=
  checkDeviceExts exts false false false false

/-- The extensions a device certificate may carry without tripping a `bail!`
in the loop: critical `CertificatePolicies`, `SubjectAlternativeName` and
`KeyUsage`, non-critical `AuthorityKeyIdentifier` and `SubjectKeyIdentifier`. -/
def deviceAllowed (e : X509Ext) : Bool :=
  match e.parsed with
  | ParsedExt.CertificatePolicies => e.critical
  | ParsedExt.SubjectAlternativeName => e.critical
  | ParsedExt.KeyUsage _ _ => e.critical
  | ParsedExt.AuthorityKeyIdentifier => !e.critical
  | ParsedExt.SubjectKeyIdentifier => !e.critical
  | _ => false

/-- The error message `check_device_cert` produces for an extension that is
not allowed (meaningful when `deviceAllowed e = false`). -/
def deviceViolation (e : X509Ext) : String :=
  match e.parsed with
  | ParsedExt.PolicyMappings => "Device Certificates cannot contain policy mappings."
  | ParsedExt.NameConstraints => "Device Certificates cannot contain name constraints."
  | ParsedExt.CertificatePolicies => "CertificatePolicies extension must be critical."
  | ParsedExt.SubjectAlternativeName => "SubjectAlternativeName extension must be critical"
  | ParsedExt.KeyUsage _ _ => "KeyUsage extension must be critical."
  | ParsedExt.AuthorityKeyIdentifier => "AuthorityKeyIdentifier extension cannot be critical."
  | ParsedExt.SubjectKeyIdentifier => "SubjectKeyIdentifier cannot be critical"
  | _ => "Unexpected extension or unparsed extension encountered."

/-- Whether the list contains a critical `KeyUsage` extension. -/
def hasCritKeyUsage (exts : List X509Ext) : Bool :=
  exts.any fun e =>
    e.critical && (match e.parsed with | ParsedExt.KeyUsage _ _ => true | _ => false)

/-- Whether the list contains a critical `CertificatePolicies` extension. -/
def hasCritCertPolicies (exts : List X509Ext) : Bool :=
  exts.any fun e => e.critical && decide (e.parsed = ParsedExt.CertificatePolicies)

/-- Whether the list contains a critical `SubjectAlternativeName`
extension. -/
def hasCritSan (exts : List X509Ext) : Bool :=
  exts.any fun e => e.critical && decide (e.parsed = ParsedExt.SubjectAlternativeName)

/-- Whether the list contains a non-critical `AuthorityKeyIdentifier`
extension. -/
def hasNonCritAki (exts : List X509Ext) : Bool :=
  exts.any fun e => !e.critical && decide (e.parsed = ParsedExt.AuthorityKeyIdentifier)

/-! ## Helper lemmas: UTF-8 decoding inverts encoding -/

/-- Decoding an empty byte list strictly yields the empty character list. -/
theorem utf8Decode_nil : utf8DecodeChars [] = some [] := by
  rw [utf8DecodeChars.eq_def]

/-- One strict decoding step on an ASCII byte. -/
theorem utf8Decode_ascii (b0 : Nat) (rest : List Nat) (h : b0 < 0x80) :
    utf8DecodeChars (b0 :: rest) = (utf8DecodeChars rest).map (Char.ofNat b0 :: ·) := by
  rw [utf8DecodeChars.eq_def]
  simp [h]

/-- One strict decoding step on a well-formed two-byte sequence. -/
theorem utf8Decode_two (b0 b1 : Nat) (rest : List Nat) (h0 : 0xC2 ≤ b0) (h1 : b0 < 0xE0)
    (hc : contByte b1 = true) :
    utf8DecodeChars (b0 :: b1 :: rest) =
      (utf8DecodeChars rest).map (Char.ofNat ((b0 - 0xC0) * 64 + (b1 - 0x80)) :: ·) := by
  rw [utf8DecodeChars.eq_def]
  simp only [hc]
  rw [if_neg (by omega), if_neg (by omega), if_pos (by omega)]
  simp

/-- One strict decoding step on a well-formed three-byte sequence. -/
theorem utf8Decode_three (b0 b1 b2 : Nat) (rest : List Nat) (h0 : 0xE0 ≤ b0) (h1 : b0 < 0xF0)
    (hs : validSecond3 b0 b1 = true) (hc : contByte b2 = true) :
    utf8DecodeChars (b0 :: b1 :: b2 :: rest) =
      (utf8DecodeChars rest).map
        (Char.ofNat ((b0 - 0xE0) * 4096 + (b1 - 0x80) * 64 + (b2 - 0x80)) :: ·) := by
  rw [utf8DecodeChars.eq_def]
  simp only [hs, hc]
  rw [if_neg (by omega), if_neg (by omega), if_neg (by omega), if_pos (by omega)]
  simp

/-- One strict decoding step on a well-formed four-byte sequence. -/
theorem utf8Decode_four (b0 b1 b2 b3 : Nat) (rest : List Nat) (h0 : 0xF0 ≤ b0) (h1 : b0 < 0xF5)
    (hs : validSecond4 b0 b1 = true) (hc2 : contByte b2 = true) (hc3 : contByte b3 = true) :
    utf8DecodeChars (b0 :: b1 :: b2 :: b3 :: rest) =
      (utf8DecodeChars rest).map
        (Char.ofNat ((b0 - 0xF0) * 0x40000 + (b1 - 0x80) * 4096
            + (b2 - 0x80) * 64 + (b3 - 0x80)) :: ·) := by
  rw [utf8DecodeChars.eq_def]
  simp only [hs, hc2, hc3]
  rw [if_neg (by omega), if_neg (by omega), if_neg (by omega), if_neg (by omega),
    if_pos (by omega)]
  simp

/-- Strictly decoding the UTF-8 encoding of one character consumes exactly
that encoding and yields the character back. -/
theorem utf8Decode_charBytes (c : Char) (rest : List Nat) :
    utf8DecodeChars (charBytes c ++ rest) = (utf8DecodeChars rest).map (c :: ·) := by
  have hv : c.toNat < 55296 ∨ 57343 < c.toNat ∧ c.toNat < 1114112 := c.valid
  have hid : Char.ofNat c.toNat = c := Char.ofNat_toNat c
  by_cases h1 : c.toNat < 0x80
  · have hb : charBytes c = [c.toNat] := by simp [charBytes, h1]
    rw [hb, List.cons_append, List.nil_append, utf8Decode_ascii _ _ h1, hid]
  · by_cases h2 : c.toNat < 0x800
    · have hb : charBytes c = [0xC0 + c.toNat / 64, 0x80 + c.toNat % 64] := by
        simp [charBytes, h1, h2]
      rw [hb]
      simp only [List.cons_append, List.nil_append]
      rw [utf8Decode_two _ _ _ (by omega) (by omega) (by simp only [contByte]; simp; omega)]
      have harith : (0xC0 + c.toNat / 64 - 0xC0) * 64 + (0x80 + c.toNat % 64 - 0x80)
          = c.toNat := by omega
      rw [harith, hid]
    · by_cases h3 : c.toNat < 0x10000
      · have hb : charBytes c
            = [0xE0 + c.toNat / 4096, 0x80 + (c.toNat / 64) % 64, 0x80 + c.toNat % 64] := by
          simp [charBytes, h1, h2, h3]
        rw [hb]
        simp only [List.cons_append, List.nil_append]
        have hs : validSecond3 (0xE0 + c.toNat / 4096) (0x80 + (c.toNat / 64) % 64) = true := by
          unfold validSecond3 contByte
          by_cases hE0 : (0xE0 + c.toNat / 4096 : Nat) = 0xE0
          · rw [if_pos hE0]; simp; omega
          · rw [if_neg hE0]
            by_cases hED : (0xE0 + c.toNat / 4096 : Nat) = 0xED
            · rw [if_pos hED]; simp; omega
            · rw [if_neg hED]; simp; omega
        rw [utf8Decode_three _ _ _ _ (by omega) (by omega) hs
          (by simp only [contByte]; simp; omega)]
        have harith : (0xE0 + c.toNat / 4096 - 0xE0) * 4096
            + (0x80 + (c.toNat / 64) % 64 - 0x80) * 64 + (0x80 + c.toNat % 64 - 0x80)
            = c.toNat := by omega
        rw [harith, hid]
      · have hb : charBytes c
            = [0xF0 + c.toNat / 0x40000, 0x80 + (c.toNat / 4096) % 64,
               0x80 + (c.toNat / 64) % 64, 0x80 + c.toNat % 64] := by
          simp [charBytes, h1, h2, h3]
        rw [hb]
        simp only [List.cons_append, List.nil_append]
        have hs : validSecond4 (0xF0 + c.toNat / 0x40000) (0x80 + (c.toNat / 4096) % 64)
            = true := by
          unfold validSecond4 contByte
          by_cases hF0 : (0xF0 + c.toNat / 0x40000 : Nat) = 0xF0
          · rw [if_pos hF0]; simp; omega
          · rw [if_neg hF0]
            by_cases hF4 : (0xF0 + c.toNat / 0x40000 : Nat) = 0xF4
            · rw [if_pos hF4]; simp; omega
            · rw [if_neg hF4]; simp; omega
        rw [utf8Decode_four _ _ _ _ _ (by omega) (by omega) hs
          (by simp only [contByte]; simp; omega) (by simp only [contByte]; simp; omega)]
        have harith : (0xF0 + c.toNat / 0x40000 - 0xF0) * 0x40000
            + (0x80 + (c.toNat / 4096) % 64 - 0x80) * 4096
            + (0x80 + (c.toNat / 64) % 64 - 0x80) * 64 + (0x80 + c.toNat % 64 - 0x80)
            = c.toNat := by omega
        rw [harith, hid]

/-- Strictly decoding the concatenated encodings of a character list yields
that list back, prefixed onto whatever the remainder decodes to. -/
theorem utf8Decode_flatten (cs : List Char) (rest : List Nat) :
    utf8DecodeChars ((cs.map charBytes).flatten ++ rest) =
      (utf8DecodeChars rest).map (cs ++ ·) := by
  induction cs with
  | nil =>
    simp only [List.map_nil, List.flatten_nil, List.nil_append]
    cases utf8DecodeChars rest <;> simp
  | cons c cs ih =>
    simp only [List.map_cons, List.flatten_cons, List.append_assoc]
    rw [utf8Decode_charBytes c _, ih]
    cases utf8DecodeChars rest <;> simp

/-- Rust `String::from_utf8` inverts `str::as_bytes`. -/
theorem from_utf8_strBytes (s : String) : from_utf8 (strBytes s) = some s := by
  have h := utf8Decode_flatten s.data []
  rw [List.append_nil, utf8Decode_nil] at h
  rw [from_utf8, strBytes, h]
  cases s
  simp

/-! ## Helper lemmas: poll task and certificate validator -/

/-- Once the poll-task loop is woken by an event that breaks it, no event
after it contributes any action. -/
theorem pollActions_append_stop (e : WakeEvent) (he : stopsPollTask e = true)
    (pre post : List WakeEvent) :
    pollActions (pre ++ e :: post) = pollActions pre := by
  induction pre with
  | nil => cases e <;> simp_all [stopsPollTask, pollActions]
  | cons w pre ih => cases w <;> simp [pollActions, ih]

/-- On a list of extensions that are all allowed for a device certificate,
the loop of `check_device_cert` just accumulates the presence flags. -/
theorem checkDeviceExts_allowed (exts : List X509Ext) :
    ∀ ku cp san aki : Bool, (∀ e ∈ exts, deviceAllowed e = true) →
      checkDeviceExts exts ku cp san aki =
        checkDeviceExts [] (ku || hasCritKeyUsage exts) (cp || hasCritCertPolicies exts)
          (san || hasCritSan exts) (aki || hasNonCritAki exts) := by
  induction exts with
  | nil =>
    intro ku cp san aki _
    simp [hasCritKeyUsage, hasCritCertPolicies, hasCritSan, hasNonCritAki]
  | cons e rest ih =>
    intro ku cp san aki h
    obtain ⟨crit, p⟩ := e
    have he : deviceAllowed ⟨crit, p⟩ = true := h _ (by simp)
    have hrest : ∀ x ∈ rest, deviceAllowed x = true := fun x hx => h x (by simp [hx])
    cases p with
    | CertificatePolicies =>
      have hc : crit = true := by simpa [deviceAllowed] using he
      subst hc
      have hstep : checkDeviceExts (⟨true, ParsedExt.CertificatePolicies⟩ :: rest) ku cp san aki
          = checkDeviceExts rest ku true san aki := rfl
      rw [hstep, ih _ _ _ _ hrest]
      simp [hasCritKeyUsage, hasCritCertPolicies, hasCritSan, hasNonCritAki]
    | SubjectAlternativeName =>
      have hc : crit = true := by simpa [deviceAllowed] using he
      subst hc
      have hstep : checkDeviceExts (⟨true, ParsedExt.SubjectAlternativeName⟩ :: rest) ku cp san aki
          = checkDeviceExts rest ku cp true aki := rfl
      rw [hstep, ih _ _ _ _ hrest]
      simp [hasCritKeyUsage, hasCritCertPolicies, hasCritSan, hasNonCritAki]
    | KeyUsage kcs crl =>
      have hc : crit = true := by simpa [deviceAllowed] using he
      subst hc
      have hstep : checkDeviceExts (⟨true, ParsedExt.KeyUsage kcs crl⟩ :: rest) ku cp san aki
          = checkDeviceExts rest true cp san aki := rfl
      rw [hstep, ih _ _ _ _ hrest]
      simp [hasCritKeyUsage, hasCritCertPolicies, hasCritSan, hasNonCritAki]
    | AuthorityKeyIdentifier =>
      have hc : crit = false := by simpa [deviceAllowed] using he
      subst hc
      have hstep : checkDeviceExts (⟨false, ParsedExt.AuthorityKeyIdentifier⟩ :: rest) ku cp san aki
          = checkDeviceExts rest ku cp san true := rfl
      rw [hstep, ih _ _ _ _ hrest]
      simp [hasCritKeyUsage, hasCritCertPolicies, hasCritSan, hasNonCritAki]
    | SubjectKeyIdentifier =>
      have hc : crit = false := by simpa [deviceAllowed] using he
      subst hc
      have hstep : checkDeviceExts (⟨false, ParsedExt.SubjectKeyIdentifier⟩ :: rest) ku cp san aki
          = checkDeviceExts rest ku cp san aki := rfl
      rw [hstep, ih _ _ _ _ hrest]
      simp [hasCritKeyUsage, hasCritCertPolicies, hasCritSan, hasNonCritAki]
    | PolicyMappings => simp [deviceAllowed] at he
    | NameConstraints => simp [deviceAllowed] at he
    | BasicConstraints ca plp => simp [deviceAllowed] at he
    | UnsupportedExtension => simp [deviceAllowed] at he

/-- The loop of `check_device_cert` reports the first disallowed extension's
violation, whatever came before it being allowed. -/
theorem checkDeviceExts_violation (pre : List X509Ext) (bad : X509Ext) (post : List X509Ext) :
    ∀ ku cp san aki : Bool, (∀ e ∈ pre, deviceAllowed e = true) →
      deviceAllowed bad = false →
      checkDeviceExts (pre ++ bad :: post) ku cp san aki =
        Except.error (deviceViolation bad) := by
  induction pre with
  | nil =>
    intro ku cp san aki _ hbad
    obtain ⟨crit, p⟩ := bad
    cases p with
    | PolicyMappings => rfl
    | NameConstraints => rfl
    | BasicConstraints ca plp => rfl
    | UnsupportedExtension => rfl
    | CertificatePolicies =>
      have hc : crit = false := by simpa [deviceAllowed] using hbad
      subst hc; rfl
    | SubjectAlternativeName =>
      have hc : crit = false := by simpa [deviceAllowed] using hbad
      subst hc; rfl
    | KeyUsage kcs crl =>
      have hc : crit = false := by simpa [deviceAllowed] using hbad
      subst hc; rfl
    | AuthorityKeyIdentifier =>
      have hc : crit = true := by simpa [deviceAllowed] using hbad
      subst hc; rfl
    | SubjectKeyIdentifier =>
      have hc : crit = true := by simpa [deviceAllowed] using hbad
      subst hc; rfl
  | cons e pre ih =>
    intro ku cp san aki h hbad
    obtain ⟨crit, p⟩ := e
    have he : deviceAllowed ⟨crit, p⟩ = true := h _ (by simp)
    have hpre : ∀ x ∈ pre, deviceAllowed x = true := fun x hx => h x (by simp [hx])
    cases p with
    | CertificatePolicies =>
      have hc : crit = true := by simpa [deviceAllowed] using he
      subst hc
      exact ih ku true san aki hpre hbad
    | SubjectAlternativeName =>
      have hc : crit = true := by simpa [deviceAllowed] using he
      subst hc
      exact ih ku cp true aki hpre hbad
    | KeyUsage kcs crl =>
      have hc : crit = true := by simpa [deviceAllowed] using he
      subst hc
      exact ih true cp san aki hpre hbad
    | AuthorityKeyIdentifier =>
      have hc : crit = false := by simpa [deviceAllowed] using he
      subst hc
      exact ih ku cp san true hpre hbad
    | SubjectKeyIdentifier =>
      have hc : crit = false := by simpa [deviceAllowed] using he
      subst hc
      exact ih ku cp san aki hpre hbad
    | PolicyMappings => simp [deviceAllowed] at he
    | NameConstraints => simp [deviceAllowed] at he
    | BasicConstraints ca plp => simp [deviceAllowed] at he
    | UnsupportedExtension => simp [deviceAllowed] at he

/-- The presence checks run by `check_device_cert` after the loop succeed
exactly when all four flags are set. -/
theorem checkDeviceExts_nil_ok_iff (a b c d : Bool) :
    checkDeviceExts [] a b c d = Except.ok () ↔
      (a = true ∧ b = true ∧ c = true ∧ d = true) := by
  cases a <;> cases b <;> cases c <;> cases d <;> simp [checkDeviceExts]

/-- A list of extensions that is not entirely allowed splits at its first
disallowed element. -/
theorem exists_first_violation (l : List X509Ext)
    (h : ¬ ∀ e ∈ l, deviceAllowed e = true) :
    ∃ pre bad post, l = pre ++ bad :: post
      ∧ (∀ e ∈ pre, deviceAllowed e = true) ∧ deviceAllowed bad = false := by
  induction l with
  | nil => simp at h
  | cons e rest ih =>
    by_cases he : deviceAllowed e = true
    · have hr : ¬ ∀ x ∈ rest, deviceAllowed x = true := by
        intro hall
        refine h ?_
        intro x hx
        rcases List.mem_cons.mp hx with rfl | hx
        · exact he
        · exact hall x hx
      obtain ⟨pre, bad, post, heq, hpre, hbad⟩ := ih hr
      refine ⟨e :: pre, bad, post, by simp [heq], ?_, hbad⟩
      intro x hx
      rcases List.mem_cons.mp hx with rfl | hx
      · exact he
      · exact hpre x hx
    · exact ⟨[], e, rest, rfl, by simp, by simpa using he⟩

/-! ## The claims -/

/-- Claim C1: for every path and serializable resource, `Client::put` and
`Client::post` (through `put_post`) return `Created(loc)` on a 201 response
whose `Location` header decodes to `loc`, fail with
"201 Created - Missing Location Header" on a 201 without that header,
return `NoContent` on 204, fail with "400 Bad Request" on 400, with
"404 Not Found" on 404, and with an unexpected-response error on any other
status.  The path and the serialized resource shape only the request, not
this response dispatch. -/
theorem claim_c1_put_post_status_contract :
    (∀ (bytes : List Nat) (loc : String), headerToStr bytes = some loc →
      Client.put_post 201 (some bytes) = Except.ok (SepResponse.Created loc))
  ∧ Client.put_post 201 none = Except.error "201 Created - Missing Location Header"
  ∧ (∀ l, Client.put_post 204 l = Except.ok SepResponse.NoContent)
  ∧ (∀ l, Client.put_post 400 l = Except.error "400 Bad Request")
  ∧ (∀ l, Client.put_post 404 l = Except.error "404 Not Found")
  ∧ (∀ (s : Nat) (l : Option (List Nat)), s ≠ 201 → s ≠ 204 → s ≠ 400 → s ≠ 404 →
      Client.put_post s l = Except.error "Unexpected HTTP response from server") := by
  refine ⟨?_, rfl, fun l => rfl, fun l => rfl, fun l => rfl, ?_⟩
  · intro bytes loc h
    simp [Client.put_post, h]
  · intro s l h1 h2 h3 h4
    simp [Client.put_post, h1, h2, h3, h4]

/-- Witness for C1: a 201 with `Location: /edev/3` yields `Created "/edev/3"`
and a 500 yields the unexpected-response error. -/
theorem claim_c1_put_post_status_contract_witness :
    Client.put_post 201 (some [47, 101, 100, 101, 118, 47, 51])
        = Except.ok (SepResponse.Created "/edev/3")
  ∧ Client.put_post 500 none = Except.error "Unexpected HTTP response from server" := by
  constructor
  · exact claim_c1_put_post_status_contract.1 [47, 101, 100, 101, 118, 47, 51] "/edev/3"
      (by decide)
  · exact claim_c1_put_post_status_contract.2.2.2.2.2 500 none (by decide) (by decide)
      (by decide) (by decide)

/-- Counterexample to C2 as stated: on status 500 the error produced by
`Client::get` is "Unexpected HTTP response from server", not the claim's
quoted string "Unexpected HTTP response". -/
theorem claim_c2_counterexample :
    Client.get (fun s => Except.ok s) 500 []
        = Except.error "Unexpected HTTP response from server"
  ∧ "Unexpected HTTP response from server" ≠ "Unexpected HTTP response" :=
  ⟨rfl, by decide⟩

/-- Claim C2 (amended): `Client::get` succeeds exactly when the status is
200 and the body, decoded with lossy UTF-8, deserializes; 404 yields the
error "404 Not Found" and any other status yields the error
"Unexpected HTTP response from server"; in the non-200 cases the result does
not depend on the body (the body is never read or decoded). -/
theorem claim_c2_get_status_contract :
    ∀ (R : Type) (deser : String → Except String R) (status : Nat) (body : List Nat),
      ((∃ r, Client.get deser status body = Except.ok r) ↔
        (status = 200 ∧ ∃ r, deser (from_utf8_lossy body) = Except.ok r))
    ∧ Client.get deser 200 body = deser (from_utf8_lossy body)
    ∧ Client.get deser 404 body = Except.error "404 Not Found"
    ∧ (status ≠ 200 → status ≠ 404 →
        Client.get deser status body = Except.error "Unexpected HTTP response from server")
    ∧ (status ≠ 200 → ∀ body2, Client.get deser status body = Client.get deser status body2) := by
  intro R deser status body
  refine ⟨⟨?_, ?_⟩, ?_, rfl, ?_, ?_⟩
  · rintro ⟨r, hr⟩
    by_cases h200 : status = 200
    · subst h200
      simp only [Client.get, if_pos rfl] at hr
      exact ⟨rfl, r, hr⟩
    · by_cases h404 : status = 404 <;> simp [Client.get, h200, h404] at hr
  · rintro ⟨h200, r, hr⟩
    subst h200
    exact ⟨r, by simp [Client.get, hr]⟩
  · simp [Client.get]
  · intro h1 h2
    simp [Client.get, h1, h2]
  · intro h1 body2
    by_cases h404 : status = 404 <;> simp [Client.get, h1, h404]

/-- Witness for C2: a 500 response yields the unexpected-response error. -/
theorem claim_c2_get_status_contract_witness :
    Client.get (fun s => Except.ok s) 500 [60]
      = Except.error "Unexpected HTTP response from server" :=
  (claim_c2_get_status_contract String (fun s => Except.ok s) 500 [60]).2.2.2.1
    (by decide) (by decide)

/-- Claim C3: `ClientNotifServer::run` contradicts its own documentation
("This function will return an error IFF the server could not be started.
It will recover from all other errors."): a per-connection `Ssl::new` /
`SslStream::new` failure inside the accept loop is propagated with `?` and is
fatal, even though the server had started.  The second conjunct shows the
failures the claim lists (accept error, handshake failure, serve failure)
are indeed absorbed, with graceful shutdown on completion; the third shows
the bind failure is an error. -/
theorem claim_c3_run_fatal_after_startup :
    ClientNotifServer.run true [ClientNotifServer.NetEvent.conn false true true true]
        = Except.error "failed to construct per-connection Ssl"
  ∧ ClientNotifServer.run true
        [ClientNotifServer.NetEvent.acceptErr,
         ClientNotifServer.NetEvent.conn true true false true,
         ClientNotifServer.NetEvent.conn true true true false]
        = Except.ok ⟨1, true⟩
  ∧ ClientNotifServer.run false [] = Except.error "failed to bind TCP listener" :=
  ⟨rfl, rfl, rfl⟩

/-- Counterexample to C4 as stated: on a non-macOS host (no platform
exception) the builder still calls `set_security_level(0)` — the lowering is
unconditional, not restricted to the exception case. -/
theorem claim_c4_counterexample :
    securityLevelsSet (create_client_tls_cfg false) = [0]
  ∧ get_cipher_suite false = "ECDHE-ECDSA-AES128-CCM8" :=
  ⟨rfl, rfl⟩

/-- Claim C4 (amended): the client TLS configuration offers exactly one
cipher suite — CCM8 off macOS, GCM-SHA256 with the `@SECLEVEL=0` directive
on macOS — and no other cipher-list call is ever made; the OpenSSL security
level is set to 0 unconditionally on every platform. -/
theorem claim_c4_cipher_contract :
    ∀ targetOsMacos : Bool,
      cipherListsSet (create_client_tls_cfg targetOsMacos) = [get_cipher_suite targetOsMacos]
    ∧ get_cipher_suite targetOsMacos =
        (if targetOsMacos then "ECDHE-ECDSA-AES128-GCM-SHA256@SECLEVEL=0"
         else "ECDHE-ECDSA-AES128-CCM8")
    ∧ securityLevelsSet (create_client_tls_cfg targetOsMacos) = [0] := by
  intro m
  cases m <;> exact ⟨rfl, rfl, rfl⟩

/-- Claim C5: the notification router yields `NotFound` for unregistered
paths, `MethodNotAllowed("POST")` for a registered path with a non-POST
method, and for a POST to a registered path decodes the body as UTF-8 and
runs the `add` adapter, which returns the callback's response on successful
deserialization and `BadRequest` (as an ordinary response, not a connection
error) on deserialization failure. -/
theorem claim_c5_router_contract :
    ∀ (routes : List (String × (String → SEPResponse))) (path method : String)
      (body : List Nat),
      (List.lookup path routes = none →
        router routes path method body = Except.ok SEPResponse.NotFound)
    ∧ (∀ f, List.lookup path routes = some f → method ≠ "POST" →
        router routes path method body = Except.ok (SEPResponse.MethodNotAllowed "POST"))
    ∧ (∀ (T : Type) (deser : String → Except String T) (callback : T → SEPResponse)
          (xml : String),
        List.lookup path routes = some (addRouteHandler deser callback) →
        from_utf8 body = some xml →
          router routes path "POST" body =
            Except.ok (match deser xml with
              | Except.ok resource => callback resource
              | Except.error _ => SEPResponse.BadRequest none)) := by
  intro routes path method body
  refine ⟨?_, ?_, ?_⟩
  · intro h
    simp [router, h]
  · intro f hf hm
    simp [router, hf, hm]
  · intro T deser callback xml hf hb
    simp [router, hf, hb, addRouteHandler]

/-- Witness for C5: a registered route on "/notif" answers a POST of "<"
with the callback's response, an unknown path yields `NotFound`, and a GET
on the registered path yields `MethodNotAllowed("POST")`. -/
theorem claim_c5_router_contract_witness :
    router [("/notif", addRouteHandler
        (fun s => if s = "<" then Except.ok 0 else Except.error "x")
        (fun _ : Nat => SEPResponse.NoContent))] "/notif" "POST" [60]
      = Except.ok SEPResponse.NoContent
  ∧ router [] "/missing" "GET" [] = Except.ok SEPResponse.NotFound
  ∧ router [("/notif", addRouteHandler
        (fun s => if s = "<" then Except.ok 0 else Except.error "x")
        (fun _ : Nat => SEPResponse.NoContent))] "/notif" "GET" []
      = Except.ok (SEPResponse.MethodNotAllowed "POST") := by
  refine ⟨?_, ?_, ?_⟩
  · have h := (claim_c5_router_contract [("/notif", addRouteHandler
        (fun s => if s = "<" then Except.ok 0 else Except.error "x")
        (fun _ : Nat => SEPResponse.NoContent))] "/notif" "POST" [60]).2.2 Nat
        (fun s => if s = "<" then Except.ok 0 else Except.error "x")
        (fun _ : Nat => SEPResponse.NoContent) "<" rfl
        (by simp [from_utf8, utf8DecodeChars])
    simpa using h
  · exact (claim_c5_router_contract [] "/missing" "GET" []).1 rfl
  · exact (claim_c5_router_contract [("/notif", addRouteHandler
        (fun s => if s = "<" then Except.ok 0 else Except.error "x")
        (fun _ : Nat => SEPResponse.NoContent))] "/notif" "GET" []).2.1 _ rfl (by decide)

/-- Claim C6: `check_device_cert` succeeds exactly when every extension is
one of the allowed shapes (critical KeyUsage, CertificatePolicies and
SubjectAlternativeName, non-critical AuthorityKeyIdentifier, optionally
non-critical SubjectKeyIdentifier) and the four required ones are present;
the first disallowed extension (PolicyMappings, NameConstraints, wrong
criticality, or anything else) is reported with its own message, and when
the loop passes, a missing required extension is reported in the source's
check order. -/
theorem claim_c6_check_device_cert_contract :
    ∀ exts : List X509Ext,
      (check_device_cert exts = Except.ok () ↔
        ((∀ e ∈ exts, deviceAllowed e = true)
          ∧ hasCritKeyUsage exts = true ∧ hasCritCertPolicies exts = true
          ∧ hasCritSan exts = true ∧ hasNonCritAki exts = true))
    ∧ (∀ (pre : List X509Ext) (bad : X509Ext) (post : List X509Ext),
        (∀ e ∈ pre, deviceAllowed e = true) → deviceAllowed bad = false →
          check_device_cert (pre ++ bad :: post) = Except.error (deviceViolation bad))
    ∧ ((∀ e ∈ exts, deviceAllowed e = true) →
        check_device_cert exts =
          if hasCritKeyUsage exts = false then
            Except.error "KeyUsage extension not present"
          else if hasCritCertPolicies exts = false then
            Except.error "CertificatePolicies extension not present"
          else if hasCritSan exts = false then
            Except.error "SubjectAlternativeName extension not present"
          else if hasNonCritAki exts = false then
            Except.error "AuthorityKeyIdentifier extension not present"
          else Except.ok ()) := by
  intro exts
  refine ⟨?_, ?_, ?_⟩
  · by_cases hall : ∀ e ∈ exts, deviceAllowed e = true
    · rw [check_device_cert, checkDeviceExts_allowed exts false false false false hall,
        checkDeviceExts_nil_ok_iff]
      simp only [Bool.false_or]
      constructor
      · rintro ⟨h1, h2, h3, h4⟩
        exact ⟨hall, h1, h2, h3, h4⟩
      · rintro ⟨_, h1, h2, h3, h4⟩
        exact ⟨h1, h2, h3, h4⟩
    · constructor
      · intro hok
        exfalso
        obtain ⟨pre, bad, post, heq, hpre, hbad⟩ := exists_first_violation exts hall
        rw [heq, check_device_cert,
          checkDeviceExts_violation pre bad post false false false false hpre hbad] at hok
        exact Except.noConfusion hok
      · rintro ⟨hall2, _⟩
        exact absurd hall2 hall
  · intro pre bad post hpre hbad
    rw [check_device_cert]
    exact checkDeviceExts_violation pre bad post false false false false hpre hbad
  · intro hall
    rw [check_device_cert, checkDeviceExts_allowed exts false false false false hall]
    cases hku : hasCritKeyUsage exts <;> cases hcp : hasCritCertPolicies exts <;>
      cases hsan : hasCritSan exts <;> cases haki : hasNonCritAki exts <;>
        simp [checkDeviceExts]

/-- Witness for C6: the minimal conforming extension set is accepted, and a
certificate carrying NameConstraints is rejected with that extension's
message. -/
theorem claim_c6_check_device_cert_contract_witness :
    check_device_cert
        [⟨true, ParsedExt.KeyUsage true true⟩, ⟨true, ParsedExt.CertificatePolicies⟩,
         ⟨true, ParsedExt.SubjectAlternativeName⟩, ⟨false, ParsedExt.AuthorityKeyIdentifier⟩]
      = Except.ok ()
  ∧ check_device_cert [⟨false, ParsedExt.NameConstraints⟩]
      = Except.error "Device Certificates cannot contain name constraints." := by
  constructor
  · exact (claim_c6_check_device_cert_contract _).1.mpr (by decide)
  · exact (claim_c6_check_device_cert_contract []).2.1 [] ⟨false, ParsedExt.NameConstraints⟩ []
      (by simp) (by decide)

/-- Claim C7: converting each `SepResponse` value (with header-bearing
strings that are legal header values, which the data-model invariant — a URI
in `Created`, the static "POST" in `MethodNotAllowed` — guarantees) sets
exactly the status and header of the response-model table with an empty
body, and reading back the status and relevant header recovers the value
exactly. -/
theorem claim_c7_sep_response_roundtrip :
    (∀ loc : String, validHeaderBytes (strBytes loc) = true →
        sepResponseIntoHttp (SepResponse.Created loc)
            = some ⟨201, some (strBytes loc), none, true⟩
      ∧ readBackSepResponse ⟨201, some (strBytes loc), none, true⟩
            = some (SepResponse.Created loc))
  ∧ (sepResponseIntoHttp SepResponse.NoContent = some ⟨204, none, none, true⟩
      ∧ readBackSepResponse ⟨204, none, none, true⟩ = some SepResponse.NoContent)
  ∧ (sepResponseIntoHttp SepResponse.BadRequest = some ⟨400, none, none, true⟩
      ∧ readBackSepResponse ⟨400, none, none, true⟩ = some SepResponse.BadRequest)
  ∧ (sepResponseIntoHttp SepResponse.NotFound = some ⟨404, none, none, true⟩
      ∧ readBackSepResponse ⟨404, none, none, true⟩ = some SepResponse.NotFound)
  ∧ (∀ m : String, validHeaderBytes (strBytes m) = true →
        sepResponseIntoHttp (SepResponse.MethodNotAllowed m)
            = some ⟨405, none, some (strBytes m), true⟩
      ∧ readBackSepResponse ⟨405, none, some (strBytes m), true⟩
            = some (SepResponse.MethodNotAllowed m)) := by
  refine ⟨?_, ⟨rfl, rfl⟩, ⟨rfl, rfl⟩, ⟨rfl, rfl⟩, ?_⟩
  · intro loc h
    constructor
    · simp [sepResponseIntoHttp, headerValueFromStr, h]
    · simp [readBackSepResponse, from_utf8_strBytes]
  · intro m h
    constructor
    · simp [sepResponseIntoHttp, headerValueFromStr, h]
    · simp [readBackSepResponse, from_utf8_strBytes]

/-- Witness for C7: the conversion and read-back at `Created "/edev/3"` and
at `MethodNotAllowed "POST"`. -/
theorem claim_c7_sep_response_roundtrip_witness :
    (sepResponseIntoHttp (SepResponse.Created "/edev/3")
        = some ⟨201, some (strBytes "/edev/3"), none, true⟩
      ∧ readBackSepResponse ⟨201, some (strBytes "/edev/3"), none, true⟩
        = some (SepResponse.Created "/edev/3"))
  ∧ (sepResponseIntoHttp (SepResponse.MethodNotAllowed "POST")
        = some ⟨405, none, some (strBytes "POST"), true⟩
      ∧ readBackSepResponse ⟨405, none, some (strBytes "POST"), true⟩
        = some (SepResponse.MethodNotAllowed "POST")) :=
  ⟨claim_c7_sep_response_roundtrip.1 "/edev/3" (by decide),
   claim_c7_sep_response_roundtrip.2.2.2.2 "POST" (by decide)⟩

/-- Claim C8: once a poll task receives `Cancel` — or its broadcast channel
closes — it performs no further GET and invokes no further callback: the
actions of any event sequence continuing past the `cancel` (or `closed`)
wake are exactly the actions before it. -/
theorem claim_c8_cancel_terminates :
    ∀ (pre post : List WakeEvent),
      pollActions (pre ++ WakeEvent.cancel :: post) = pollActions pre
    ∧ pollActions (pre ++ WakeEvent.closed :: post) = pollActions pre :=
  fun pre post =>
    ⟨pollActions_append_stop WakeEvent.cancel rfl pre post,
     pollActions_append_stop WakeEvent.closed rfl pre post⟩

/-- Claim C9: a poll task also terminates on a `Lagged` receive error (the
`else` branch breaks on every receive error, not only `Closed`); with the
capacity-1 channel of `Client::new`, a receiver that has not yet awaited the
channel when two control messages are sent observes `Lagged(1)` — so two
`force_poll` calls in quick succession terminate a lagging poll task even
though the latest message was `ForceRun`. -/
theorem claim_c9_lagged_terminates :
    (∀ (pre post : List WakeEvent),
        pollActions (pre ++ WakeEvent.lagged :: post) = pollActions pre)
  ∧ broadcastRecv pollChannelCapacity [PollMsg.forceRun, PollMsg.forceRun] 0
      = some (Except.error 1)
  ∧ List.getLast? [PollMsg.forceRun, PollMsg.forceRun] = some PollMsg.forceRun
  ∧ pollActions [WakeEvent.lagged] = [] :=
  ⟨fun pre post => pollActions_append_stop WakeEvent.lagged rfl pre post, rfl, rfl, rfl⟩

/-- Counterexample to C10 as stated: the conversion is not panic-free on the
other variants — `MethodNotAllowed "\n"` panics in
`HeaderValue::from_static` (modelled as `none`) — and a non-ASCII byte does
not make a location unparseable: `Created "é"` converts without panicking
(bytes at and above 128 are legal obs-text header bytes). -/
theorem claim_c10_counterexample :
    sepResponseIntoHttp (SepResponse.MethodNotAllowed "\n") = none
  ∧ sepResponseIntoHttp (SepResponse.Created "é") ≠ none := by
  constructor
  · decide
  · decide

/-- Claim C10 (amended): converting `Created(loc)` panics exactly when `loc`
contains an illegal header-value byte (a control byte other than tab, or
DEL; non-ASCII bytes are accepted); `NoContent`, `BadRequest` and `NotFound`
never panic; `MethodNotAllowed(m)` panics in the same way when `m` is not a
legal header value (the crate only ever constructs it with "POST"). -/
theorem claim_c10_panic_characterization :
    (∀ loc : String, sepResponseIntoHttp (SepResponse.Created loc) = none
        ↔ validHeaderBytes (strBytes loc) = false)
  ∧ sepResponseIntoHttp SepResponse.NoContent ≠ none
  ∧ sepResponseIntoHttp SepResponse.BadRequest ≠ none
  ∧ sepResponseIntoHttp SepResponse.NotFound ≠ none
  ∧ (∀ m : String, sepResponseIntoHttp (SepResponse.MethodNotAllowed m) = none
        ↔ validHeaderBytes (strBytes m) = false) := by
  refine ⟨?_, by simp [sepResponseIntoHttp], by simp [sepResponseIntoHttp],
    by simp [sepResponseIntoHttp], ?_⟩
  · intro loc
    by_cases h : validHeaderBytes (strBytes loc) = true <;>
      simp [sepResponseIntoHttp, headerValueFromStr, h]
  · intro m
    by_cases h : validHeaderBytes (strBytes m) = true <;>
      simp [sepResponseIntoHttp, headerValueFromStr, h]

end Sep2Client
